import Mathlib

/-!
# Verification of the png-to-ico repository's folder-icon reconciler and favicon assembler

Shallow embedding of the two source files:

* `src/set_folder_icon.py` — the standalone CLI folder-icon reconciler
  (`get_ico_sizes`, `set_folder_icon`, `process_single_folder`,
  `apply_folder_icon`), embedded in namespace `SetFolderIcon`.
* `src/png_to_ico.py` — the GUI application; the parts relevant to the claims
  (`PngToIcoConverter.process_single_folder`, `PngToIcoConverter.set_folder_icon`,
  `PngToIcoConverter.validate_prefix`, `PngToIcoConverter.generate_favicon_set`),
  embedded in namespace `PngToIco`.

The imaging capability (Pillow) is opaque in the source; it is modelled by:
* a `pillow : Bool` flag for the `Image is None` checks,
* the parse result of an ICO file (`Option (List Nat)`: `none` when
  `Image.open`/frame traversal raises, `some ws` for a container whose frames
  have pixel widths `ws`),
* a `PngFile` value for a present `folder.png` (`ok` when `Image.open` + `save`
  succeed, `bad msg` when they raise with message `msg`); a successful
  `img.save(ico_path, format=ICO, sizes=S)` produces an ICO whose frame widths
  are the widths of `S`.

The external `attrib` subprocess calls are fire-and-forget in the source
(`capture_output=True`, exit code ignored); they are modelled as boolean
attribute fields on the folder state.  Failure of the `desktop.ini` write is
modelled by a per-folder `WriteCap` capability (`ok`, `permDenied` for a
`PermissionError`, `failMsg m` for any other exception with message `m`).
-/

namespace SetFolderIcon

/-- A present `folder.png`, as seen by the imaging capability:
`ok` if `Image.open` + `save` succeed on it, `bad m` if they raise
an exception whose string form is `m`. -/
inductive PngFile where
  | ok : PngFile
  | bad : String → PngFile
  deriving Repr, DecidableEq

/-- Outcome capability for writing `desktop.ini` in a given folder:
`ok` — the write succeeds; `permDenied` — `write_text` raises
`PermissionError`; `failMsg m` — some other exception with message `m`. -/
inductive WriteCap where
  | ok : WriteCap
  | permDenied : WriteCap
  | failMsg : String → WriteCap
  deriving Repr, DecidableEq

/-- The state of one directory, as far as the reconciler reads and writes it.

* `ico = none` — no `folder.ico` file; `ico = some parsed` — a `folder.ico`
  exists and `parsed` is its parse result (`none` = unreadable/corrupt,
  `some ws` = frame widths `ws`).
* `png` — the `folder.png` file, if present.
* `ini` — the text content of `desktop.ini`, if present.
* `icoAbs` — the string `str((folder / "folder.ico").resolve())`.
* `sysAttr` — the folder's `system` attribute; `iniAttr` — the
  `system+hidden` attributes on `desktop.ini`.
* `writeCap` — whether writing `desktop.ini` here succeeds. -/
structure Folder where
  name : String
  icoAbs : String
  ico : Option (Option (List Nat))
  png : Option PngFile
  ini : Option String
  sysAttr : Bool
  iniAttr : Bool
  writeCap : WriteCap
  deriving Repr, DecidableEq

/-- The Python value returned by `set_folder_icon` / the first component
returned by `process_single_folder`: `True` on success, an error string on
failure.  (The `None` case documented in the source never occurs: every
return path yields `True` or a string.) -/
inductive PyResult where
  | ok : PyResult
  | err : String → PyResult
  deriving Repr, DecidableEq

/-- `REQUIRED_FOLDER_ICO_SIZES = {16, 32, 48, 256}` — widths a folder ICO
must contain. -/
def REQUIRED_FOLDER_ICO_SIZES : Finset Nat := {16, 32, 48, 256}

/-- `FOLDER_ICO_SIZES = [(16,16),(32,32),(48,48),(64,64),(128,128),(256,256)]`
— full set of sizes generated when creating/regenerating folder ICOs. -/
def FOLDER_ICO_SIZES : List (Nat × Nat) :=
  [(16, 16), (32, 32), (48, 48), (64, 64), (128, 128), (256, 256)]

/-- The frame widths of an ICO produced by
`img.save(path, format=ICO, sizes=FOLDER_ICO_SIZES)`. -/
def fullIcoWidths : List Nat := FOLDER_ICO_SIZES.map Prod.fst

/-- `get_ico_sizes(ico_path)` — set of widths contained in an ICO file.
Returns the empty set when Pillow is unavailable (`Image is None`) and when
opening/parsing raises (the `except Exception` branch).  For a parsed
container it collects the width of every frame (`n_frames > 1` loop), or the
single image's width otherwise — in both cases the set of all frame widths. -/
def get_ico_sizes (pillow : Bool) (parsed : Option (List Nat)) : Finset Nat :=
  if pillow = false then ∅
  else
    match parsed with
    | none => ∅
    | some ws => ws.toFinset

/-- `set_folder_icon(folder_path, ico_path, use_absolute_path)` — create
`desktop.ini` and set folder attributes.  `icoName` is `ico_path.name` and
`icoAbs` is `str(ico_path.resolve())`.  If `desktop.ini` exists its
attributes are first cleared (`attrib -s -h -r`); then the content
`[.ShellClassInfo]\nIconResource=<ref>,0\n` is written with `<ref>` the bare
name or the resolved path; then `attrib +s` on the folder and
`attrib +s +h` on `desktop.ini`.  Returns `True`, or the error message. -/
def set_folder_icon (f : Folder) (icoName icoAbs : String)
    (use_absolute_path : Bool) : Folder × PyResult :=
  let f1 := if f.ini.isSome then { f with iniAttr := false } else f
  match f.writeCap with
  | WriteCap.permDenied =>
      (f1, PyResult.err "Permission denied (try running as administrator)")
  | WriteCap.failMsg m => (f1, PyResult.err m)
  | WriteCap.ok =>
      let icon_ref := if use_absolute_path then icoAbs else icoName
      let content := "[.ShellClassInfo]\nIconResource=" ++ icon_ref ++ ",0\n"
      ({ f1 with ini := some content, sysAttr := true, iniAttr := true },
       PyResult.ok)

/-- The tail common to the success paths of `process_single_folder`:
`result = set_folder_icon(...); return (result, ico_path) if result is True
else (result, None)`. -/
def finishSetIcon (f : Folder) (use_absolute_path : Bool) :
    Folder × PyResult × Option String :=
  let r := set_folder_icon f "folder.ico" f.icoAbs use_absolute_path
  (r.1, r.2,
    match r.2 with
    | PyResult.ok => some f.icoAbs
    | PyResult.err _ => none)

/-- `process_single_folder(folder_path, use_absolute_path, verbose)` — process
a single folder to set its icon.  Returns `(state', result, ico_path)`:
the folder state after the call, the Python result (`True` or error string),
and the returned `ico_path` (`None` on failure).

Faithful to the source: Pillow gate first; if `folder.ico` exists, its sizes
are inspected and it is regenerated from `folder.png` only when
`missing_sizes` is non-empty **and** the PNG exists; if no ICO, a present PNG
is converted; otherwise the `No folder.ico or folder.png found` error. -/
def process_single_folder (pillow : Bool) (use_absolute_path : Bool)
    (f : Folder) : Folder × PyResult × Option String :=
  if pillow = false then
    (f, PyResult.err "Pillow is not installed. Please run: pip install Pillow",
     none)
  else
    match f.ico with
    | some parsed =>
        let existing_sizes := get_ico_sizes pillow parsed
        let missing_sizes := REQUIRED_FOLDER_ICO_SIZES \ existing_sizes
        if missing_sizes = ∅ then
          finishSetIcon f use_absolute_path
        else
          match f.png with
          | none => finishSetIcon f use_absolute_path
          | some PngFile.ok =>
              finishSetIcon { f with ico := some (some fullIcoWidths) }
                use_absolute_path
          | some (PngFile.bad m) =>
              (f, PyResult.err ("Failed to regenerate ICO: " ++ m), none)
    | none =>
        match f.png with
        | some PngFile.ok =>
            finishSetIcon { f with ico := some (some fullIcoWidths) }
              use_absolute_path
        | some (PngFile.bad m) =>
            (f, PyResult.err ("Failed to convert PNG: " ++ m), none)
        | none => (f, PyResult.err "No folder.ico or folder.png found", none)

/-- The aggregate outcome of `apply_folder_icon`:
`ret` — the boolean return value; `processed` — the success counter;
`errors` — the recorded `"{name}: {reason}"` entries; `mainAfter` /
`subsAfter` — the folder states after the run. -/
structure BatchOutcome where
  ret : Bool
  processed : Nat
  errors : List String
  mainAfter : Folder
  subsAfter : List Folder
  deriving Repr, DecidableEq

/-- One iteration of the subfolder loop in `apply_folder_icon`: process the
subfolder, bump `processed` on `True`, otherwise append
`"{subfolder.name}: {result}"` to `errors` (the result is never `None`). -/
def subfolderStep (pillow use_absolute_path : Bool)
    (acc : Nat × List String × List Folder) (sub : Folder) :
    Nat × List String × List Folder :=
  let r := process_single_folder pillow use_absolute_path sub
  match r.2.1 with
  | PyResult.ok => (acc.1 + 1, acc.2.1, acc.2.2 ++ [r.1])
  | PyResult.err m =>
      (acc.1, acc.2.1 ++ [sub.name ++ ": " ++ m], acc.2.2 ++ [r.1])

/-- `apply_folder_icon(folder_path, recursive, use_absolute_path, verbose)` —
apply the folder icon to the given folder and, when `recursive`, to its
immediate subfolders.  `win32`, `pillow`, `pathExists`, `pathIsDir` model the
four early `return False` gates; `subs` are the immediate subdirectories in
enumeration order (non-directory entries are skipped by the source loop and
not modelled).  Returns `True` only when at least one folder was processed
and no errors were recorded. -/
def apply_folder_icon (win32 pillow pathExists pathIsDir : Bool)
    (recursive use_absolute_path : Bool) (main : Folder)
    (subs : List Folder) : BatchOutcome :=
  if win32 = false then
    { ret := false, processed := 0, errors := [], mainAfter := main,
      subsAfter := subs }
  else if pillow = false then
    { ret := false, processed := 0, errors := [], mainAfter := main,
      subsAfter := subs }
  else if pathExists = false then
    { ret := false, processed := 0, errors := [], mainAfter := main,
      subsAfter := subs }
  else if pathIsDir = false then
    { ret := false, processed := 0, errors := [], mainAfter := main,
      subsAfter := subs }
  else
    let r := process_single_folder pillow use_absolute_path main
    let processed0 : Nat := match r.2.1 with
      | PyResult.ok => 1
      | PyResult.err _ => 0
    let errors0 : List String := match r.2.1 with
      | PyResult.ok => []
      | PyResult.err m => [main.name ++ ": " ++ m]
    let folded :=
      if recursive then
        subs.foldl (subfolderStep pillow use_absolute_path)
          (processed0, errors0, [])
      else (processed0, errors0, subs)
    { ret := decide (0 < folded.1) && folded.2.1.isEmpty,
      processed := folded.1, errors := folded.2.1, mainAfter := r.1,
      subsAfter := folded.2.2 }

end SetFolderIcon

namespace PngToIco

open SetFolderIcon (Folder PyResult PngFile WriteCap fullIcoWidths)

/-- `PngToIcoConverter.set_folder_icon(folder_path, ico_path)` — the GUI
variant: identical to the CLI one except that the icon reference is always
the bare `ico_path.name` (no absolute-path mode). -/
def set_folder_icon (f : Folder) (icoName : String) : Folder × PyResult :=
  let f1 := if f.ini.isSome then { f with iniAttr := false } else f
  match f.writeCap with
  | WriteCap.permDenied =>
      (f1, PyResult.err "Permission denied (try running as administrator)")
  | WriteCap.failMsg m => (f1, PyResult.err m)
  | WriteCap.ok =>
      let content := "[.ShellClassInfo]\nIconResource=" ++ icoName ++ ",0\n"
      ({ f1 with ini := some content, sysAttr := true, iniAttr := true },
       PyResult.ok)

/-- Success-path tail of the GUI `process_single_folder`. -/
def finishSetIcon (f : Folder) : Folder × PyResult × Option String :=
  let r := set_folder_icon f "folder.ico"
  (r.1, r.2,
    match r.2 with
    | PyResult.ok => some f.icoAbs
    | PyResult.err _ => none)

/-- `PngToIcoConverter.process_single_folder(folder_path)` — the GUI
reconciler.  Pillow availability is checked by its caller
(`apply_folder_icon`) before this runs, so it is not a parameter here.
If `folder.ico` exists it is used as-is — no width inspection, no
regeneration; otherwise a present `folder.png` is converted at the standard
sizes; otherwise the `No folder.ico or folder.png found` error. -/
def process_single_folder (f : Folder) : Folder × PyResult × Option String :=
  match f.ico with
  | some _ => finishSetIcon f
  | none =>
      match f.png with
      | some PngFile.ok => finishSetIcon { f with ico := some (some fullIcoWidths) }
      | some (PngFile.bad m) =>
          (f, PyResult.err ("Failed to convert PNG: " ++ m), none)
      | none => (f, PyResult.err "No folder.ico or folder.png found", none)

/-- The character class retained by the prefix filter:
`[a-zA-Z0-9\-_]` (everything else is removed by the `re.sub`). -/
def allowedPfxChar (c : Char) : Bool :=
  c.isAlpha || c.isDigit || c = '-' || c = '_'

/-- `PngToIcoConverter.validate_prefix` — the `<KeyRelease>` handler keeps
the prefix entry equal to `re.sub(r'[^a-zA-Z0-9\-_]', '', current)`: this is
the entry's content for a given typed input. -/
def validate_prefix (s : String) : String :=
  String.mk (s.data.filter allowedPfxChar)

/-- Python's `str.strip()` — remove leading and trailing whitespace. -/
def pyStrip (s : String) : String :=
  String.mk
    (((s.data.dropWhile Char.isWhitespace).reverse.dropWhile
      Char.isWhitespace).reverse)

/-- One entry of the manifest's `icons` list. -/
structure ManifestIcon where
  src : String
  sizes : String
  type : String
  deriving Repr, DecidableEq

/-- The `manifest.json` document written by `generate_favicon_set`. -/
structure Manifest where
  name : String
  short_name : String
  icons : List ManifestIcon
  theme_color : String
  background_color : String
  display : String
  deriving Repr, DecidableEq

/-- What `generate_favicon_set` writes: the list of generated filenames, in
generation order, and the manifest document. -/
structure FaviconSet where
  generated_files : List String
  manifest : Manifest
  deriving Repr, DecidableEq

/-- `PngToIcoConverter.generate_favicon_set` — generate the complete favicon
set.  `entryContent` is `self.prefix_entry.get()`; the used prefix is its
`.strip()`.  Emits, in order: the multi-size `favicon.ico`; the four PNG
favicons (16, 32, 192, 512 px); the 180 px `apple-touch-icon.png`; the
`manifest.json` whose `icons` reference the two android-chrome images at
root-relative paths; and the `favicon.html` snippet. -/
def generate_favicon_set (entryContent theme_color manifest_bg_color :
    String) : FaviconSet :=
  let pfx := pyStrip entryContent
  let ico_filename := pfx ++ "favicon.ico"
  let png_filenames := [pfx ++ "favicon-16x16.png", pfx ++ "favicon-32x32.png",
    pfx ++ "android-chrome-192x192.png", pfx ++ "android-chrome-512x512.png"]
  let apple_filename := pfx ++ "apple-touch-icon.png"
  let manifest_filename := pfx ++ "manifest.json"
  let html_filename := pfx ++ "favicon.html"
  let manifest : Manifest :=
    { name := "", short_name := "",
      icons := [
        { src := "/" ++ pfx ++ "android-chrome-192x192.png",
          sizes := "192x192", type := "image/png" },
        { src := "/" ++ pfx ++ "android-chrome-512x512.png",
          sizes := "512x512", type := "image/png" }],
      theme_color := theme_color,
      background_color := manifest_bg_color,
      display := "standalone" }
  { generated_files := ico_filename :: png_filenames ++
      [apple_filename, manifest_filename, html_filename],
    manifest := manifest }

end PngToIco

namespace SetFolderIcon

/-- Whether `process_single_folder` returns `True` on this folder
(the loop in `apply_folder_icon` counts exactly these). -/
def itemOk (pillow use_absolute_path : Bool) (f : Folder) : Bool :=
  match (process_single_folder pillow use_absolute_path f).2.1 with
  | PyResult.ok => true
  | PyResult.err _ => false

/-- The error entry `"{name}: {reason}"` recorded by `apply_folder_icon` for
this folder, or `none` when it succeeds. -/
def itemErrEntry (pillow use_absolute_path : Bool) (f : Folder) :
    Option String :=
  match (process_single_folder pillow use_absolute_path f).2.1 with
  | PyResult.ok => none
  | PyResult.err m => some (f.name ++ ": " ++ m)

/-- Sample directory: complete `folder.ico` (all required widths) and a
`folder.png` beside it. -/
def sampleCompleteWithPng : Folder :=
  { name := "proj", icoAbs := "C:\\data\\proj\\folder.ico",
    ico := some (some [16, 32, 48, 256]), png := some PngFile.ok,
    ini := none, sysAttr := false, iniAttr := false,
    writeCap := WriteCap.ok }

/-- Sample directory: complete `folder.ico`, no `folder.png`. -/
def sampleComplete : Folder :=
  { name := "docs", icoAbs := "C:\\data\\docs\\folder.ico",
    ico := some (some [16, 32, 48, 256]), png := none, ini := none,
    sysAttr := false, iniAttr := false, writeCap := WriteCap.ok }

/-- Sample directory: a `folder.png` only, no `folder.ico`. -/
def samplePngOnly : Folder :=
  { name := "pics", icoAbs := "C:\\data\\pics\\folder.ico", ico := none,
    png := some PngFile.ok, ini := none, sysAttr := false, iniAttr := false,
    writeCap := WriteCap.ok }

/-- Sample directory: neither `folder.ico` nor `folder.png`. -/
def sampleEmpty : Folder :=
  { name := "tmp", icoAbs := "C:\\data\\tmp\\folder.ico", ico := none,
    png := none, ini := none, sysAttr := false, iniAttr := false,
    writeCap := WriteCap.ok }

/-- Sample directory: `folder.ico` present but incomplete (only a 16 px
frame), with a `folder.png` available for regeneration. -/
def sampleIncompleteWithPng : Folder :=
  { name := "music", icoAbs := "C:\\data\\music\\folder.ico",
    ico := some (some [16]), png := some PngFile.ok, ini := none,
    sysAttr := false, iniAttr := false, writeCap := WriteCap.ok }

/-- Sample directory: corrupt/unreadable `folder.ico` (parse failure), with a
`folder.png` available for regeneration. -/
def sampleCorruptWithPng : Folder :=
  { name := "vids", icoAbs := "C:\\data\\vids\\folder.ico",
    ico := some none, png := some PngFile.ok, ini := none, sysAttr := false,
    iniAttr := false, writeCap := WriteCap.ok }

end SetFolderIcon

/-! ## Basic lemmas about the CLI reconciler -/

namespace SetFolderIcon

lemma set_folder_icon_ok (f : Folder) (n a : String) (u : Bool)
    (hw : f.writeCap = WriteCap.ok) :
    set_folder_icon f n a u =
      ({ f with
          ini := some ("[.ShellClassInfo]\nIconResource=" ++
            (if u then a else n) ++ ",0\n"),
          sysAttr := true, iniAttr := true }, PyResult.ok) := by
  unfold set_folder_icon
  rw [hw]
  cases hini : f.ini <;> simp [hw]

lemma set_folder_icon_fst_ico (f : Folder) (n a : String) (u : Bool) :
    (set_folder_icon f n a u).1.ico = f.ico := by
  unfold set_folder_icon
  cases hw : f.writeCap <;> cases hini : f.ini <;> simp

lemma set_folder_icon_snd_permDenied (f : Folder) (n a : String) (u : Bool)
    (hw : f.writeCap = WriteCap.permDenied) :
    (set_folder_icon f n a u).2 =
      PyResult.err "Permission denied (try running as administrator)" := by
  unfold set_folder_icon
  rw [hw]

lemma set_folder_icon_snd_failMsg (f : Folder) (n a : String) (u : Bool)
    (m : String) (hw : f.writeCap = WriteCap.failMsg m) :
    (set_folder_icon f n a u).2 = PyResult.err m := by
  unfold set_folder_icon
  rw [hw]

lemma finishSetIcon_fst (f : Folder) (u : Bool) :
    (finishSetIcon f u).1 = (set_folder_icon f "folder.ico" f.icoAbs u).1 :=
  rfl

lemma finishSetIcon_snd (f : Folder) (u : Bool) :
    (finishSetIcon f u).2.1 = (set_folder_icon f "folder.ico" f.icoAbs u).2 :=
  rfl

lemma finishSetIcon_ok (f : Folder) (u : Bool)
    (hw : f.writeCap = WriteCap.ok) :
    finishSetIcon f u =
      ({ f with
          ini := some ("[.ShellClassInfo]\nIconResource=" ++
            (if u then f.icoAbs else "folder.ico") ++ ",0\n"),
          sysAttr := true, iniAttr := true }, PyResult.ok, some f.icoAbs) := by
  unfold finishSetIcon
  rw [set_folder_icon_ok f "folder.ico" f.icoAbs u hw]

lemma process_complete (f : Folder) (parsed : Option (List Nat)) (u : Bool)
    (hico : f.ico = some parsed)
    (hmiss : REQUIRED_FOLDER_ICO_SIZES \ get_ico_sizes true parsed = ∅) :
    process_single_folder true u f = finishSetIcon f u := by
  unfold process_single_folder
  rw [hico]
  simp [hmiss]

lemma process_incomplete_png (f : Folder) (parsed : Option (List Nat))
    (u : Bool) (hico : f.ico = some parsed)
    (hmiss : ¬ REQUIRED_FOLDER_ICO_SIZES \ get_ico_sizes true parsed = ∅)
    (hpng : f.png = some PngFile.ok) :
    process_single_folder true u f =
      finishSetIcon { f with ico := some (some fullIcoWidths) } u := by
  unfold process_single_folder
  rw [hico]
  simp [hmiss, hpng]

lemma process_incomplete_nopng (f : Folder) (parsed : Option (List Nat))
    (u : Bool) (hico : f.ico = some parsed)
    (hmiss : ¬ REQUIRED_FOLDER_ICO_SIZES \ get_ico_sizes true parsed = ∅)
    (hpng : f.png = none) :
    process_single_folder true u f = finishSetIcon f u := by
  unfold process_single_folder
  rw [hico]
  simp [hmiss, hpng]

lemma process_incomplete_badpng (f : Folder) (parsed : Option (List Nat))
    (u : Bool) (m : String) (hico : f.ico = some parsed)
    (hmiss : ¬ REQUIRED_FOLDER_ICO_SIZES \ get_ico_sizes true parsed = ∅)
    (hpng : f.png = some (PngFile.bad m)) :
    process_single_folder true u f =
      (f, PyResult.err ("Failed to regenerate ICO: " ++ m), none) := by
  unfold process_single_folder
  rw [hico]
  simp [hmiss, hpng]

lemma process_png_only (f : Folder) (u : Bool) (hico : f.ico = none)
    (hpng : f.png = some PngFile.ok) :
    process_single_folder true u f =
      finishSetIcon { f with ico := some (some fullIcoWidths) } u := by
  unfold process_single_folder
  rw [hico, hpng]
  simp

end SetFolderIcon

namespace PngToIco

open SetFolderIcon (Folder PyResult PngFile WriteCap fullIcoWidths)

lemma gui_set_folder_icon_ok (f : Folder) (n : String)
    (hw : f.writeCap = WriteCap.ok) :
    set_folder_icon f n =
      ({ f with
          ini := some ("[.ShellClassInfo]\nIconResource=" ++ n ++ ",0\n"),
          sysAttr := true, iniAttr := true }, PyResult.ok) := by
  unfold set_folder_icon
  rw [hw]
  cases hini : f.ini <;> simp [hw]

lemma gui_set_folder_icon_fst_ico (f : Folder) (n : String) :
    (set_folder_icon f n).1.ico = f.ico := by
  unfold set_folder_icon
  cases hw : f.writeCap <;> cases hini : f.ini <;> simp

lemma gui_set_folder_icon_fst_png (f : Folder) (n : String) :
    (set_folder_icon f n).1.png = f.png := by
  unfold set_folder_icon
  cases hw : f.writeCap <;> cases hini : f.ini <;> simp

lemma gui_finishSetIcon_fst (f : Folder) :
    (finishSetIcon f).1 = (set_folder_icon f "folder.ico").1 :=
  rfl

lemma gui_process_existing (f : Folder) (parsed : Option (List Nat))
    (hico : f.ico = some parsed) :
    process_single_folder f = finishSetIcon f := by
  unfold process_single_folder
  rw [hico]

end PngToIco

namespace SetFolderIcon

/-- C1: for a directory whose `folder.ico` parses with widths a superset of
the required set {16, 32, 48, 256}, `process_single_folder` leaves
`folder.ico` untouched even when a `folder.png` is present; and whenever it
does replace `folder.ico`, some required width was missing and `folder.png`
exists.  The GUI reconciler likewise never touches an existing `folder.ico`. -/
theorem reconcile_complete_ico_not_regenerated (f : Folder)
    (parsed : Option (List Nat)) (u : Bool) (hico : f.ico = some parsed) :
    (REQUIRED_FOLDER_ICO_SIZES ⊆ get_ico_sizes true parsed →
      (process_single_folder true u f).1.ico = f.ico) ∧
    ((process_single_folder true u f).1.ico ≠ f.ico →
      REQUIRED_FOLDER_ICO_SIZES \ get_ico_sizes true parsed ≠ ∅ ∧
        f.png.isSome = true) ∧
    (PngToIco.process_single_folder f).1.ico = f.ico := by
  refine ⟨?_, ?_, ?_⟩
  · intro hsub
    have hmiss : REQUIRED_FOLDER_ICO_SIZES \ get_ico_sizes true parsed = ∅ :=
      Finset.sdiff_eq_empty_iff_subset.mpr hsub
    rw [process_complete f parsed u hico hmiss, finishSetIcon_fst,
      set_folder_icon_fst_ico]
  · intro hne
    by_cases hmiss :
        REQUIRED_FOLDER_ICO_SIZES \ get_ico_sizes true parsed = ∅
    · exact absurd (by
        rw [process_complete f parsed u hico hmiss, finishSetIcon_fst,
          set_folder_icon_fst_ico]) hne
    · cases hpng : f.png with
      | none =>
        exact absurd (by
          rw [process_incomplete_nopng f parsed u hico hmiss hpng,
            finishSetIcon_fst, set_folder_icon_fst_ico]) hne
      | some pf =>
        cases pf with
        | ok => exact ⟨hmiss, rfl⟩
        | bad m =>
          exact absurd (by
            rw [process_incomplete_badpng f parsed u m hico hmiss hpng]) hne
  · rw [PngToIco.gui_process_existing f parsed hico,
      PngToIco.gui_finishSetIcon_fst, PngToIco.gui_set_folder_icon_fst_ico]

theorem reconcile_complete_ico_not_regenerated_witness :
    (process_single_folder true false sampleCompleteWithPng).1.ico =
      sampleCompleteWithPng.ico :=
  (reconcile_complete_ico_not_regenerated sampleCompleteWithPng
    (some [16, 32, 48, 256]) false rfl).1 (by decide)

end SetFolderIcon

namespace SetFolderIcon

/-- C4: a directory with `folder.png` and no `folder.ico` gets a `folder.ico`
embedding exactly the full generation size set {16, 32, 48, 64, 128, 256}, a
`desktop.ini` containing the line `IconResource=folder.ico,0` (relative
mode), and a success result. -/
theorem reconcile_png_only_full_set (f : Folder) (hico : f.ico = none)
    (hpng : f.png = some PngFile.ok) (hw : f.writeCap = WriteCap.ok) :
    (process_single_folder true false f).1.ico = some (some fullIcoWidths) ∧
    fullIcoWidths.toFinset = ({16, 32, 48, 64, 128, 256} : Finset Nat) ∧
    (process_single_folder true false f).1.ini =
      some "[.ShellClassInfo]\nIconResource=folder.ico,0\n" ∧
    "[.ShellClassInfo]\nIconResource=folder.ico,0\n" =
      "[.ShellClassInfo]" ++ "\n" ++ "IconResource=folder.ico,0" ++ "\n" ∧
    (process_single_folder true false f).2.1 = PyResult.ok := by
  have hre := process_png_only f false hico hpng
  refine ⟨?_, by decide, ?_, by decide, ?_⟩
  · rw [hre, finishSetIcon_fst, set_folder_icon_fst_ico]
  · rw [hre, finishSetIcon_ok { f with ico := some (some fullIcoWidths) }
      false hw]
    rfl
  · rw [hre, finishSetIcon_snd, set_folder_icon_ok
      { f with ico := some (some fullIcoWidths) } "folder.ico" _ false hw]

theorem reconcile_png_only_full_set_witness :
    (process_single_folder true false samplePngOnly).1.ico =
      some (some fullIcoWidths) :=
  (reconcile_png_only_full_set samplePngOnly rfl rfl rfl).1

/-- C5: a directory with neither `folder.ico` nor `folder.png` gets the
`No folder.ico or folder.png found` error and its state — files and
attributes alike — is returned unchanged. -/
theorem reconcile_no_source_returns_error (f : Folder) (u : Bool)
    (hico : f.ico = none) (hpng : f.png = none) :
    process_single_folder true u f =
      (f, PyResult.err "No folder.ico or folder.png found", none) := by
  unfold process_single_folder
  rw [hico, hpng]
  simp

theorem reconcile_no_source_returns_error_witness :
    process_single_folder true false sampleEmpty =
      (sampleEmpty, PyResult.err "No folder.ico or folder.png found",
        none) :=
  reconcile_no_source_returns_error sampleEmpty false rfl rfl

/-- C6: whenever `set_folder_icon` succeeds, the `desktop.ini` it wrote has
exactly the content `[.ShellClassInfo]\nIconResource=<ref>,0\n`, with
`<ref>` the bare ICO filename in relative mode and the resolved absolute
ICO path in absolute mode. -/
theorem set_folder_icon_exact_ini_content (f : Folder)
    (icoName icoAbs : String) (u : Bool) (f' : Folder)
    (h : set_folder_icon f icoName icoAbs u = (f', PyResult.ok)) :
    f'.ini = some ("[.ShellClassInfo]\nIconResource=" ++
      (if u then icoAbs else icoName) ++ ",0\n") := by
  cases hw : f.writeCap with
  | ok =>
    rw [set_folder_icon_ok f icoName icoAbs u hw] at h
    injection h with h1 h2
    rw [← h1]
  | permDenied =>
    have h2 := congrArg Prod.snd h
    rw [set_folder_icon_snd_permDenied f icoName icoAbs u hw] at h2
    simp at h2
  | failMsg m =>
    have h2 := congrArg Prod.snd h
    rw [set_folder_icon_snd_failMsg f icoName icoAbs u m hw] at h2
    simp at h2

theorem set_folder_icon_exact_ini_content_witness :
    (set_folder_icon sampleComplete "folder.ico"
      "C:\\data\\docs\\folder.ico" true).1.ini =
      some ("[.ShellClassInfo]\nIconResource=" ++
        (if true then "C:\\data\\docs\\folder.ico" else "folder.ico") ++
        ",0\n") :=
  set_folder_icon_exact_ini_content sampleComplete "folder.ico"
    "C:\\data\\docs\\folder.ico" true
    (set_folder_icon sampleComplete "folder.ico"
      "C:\\data\\docs\\folder.ico" true).1 (by decide)

end SetFolderIcon

namespace SetFolderIcon

/-- C7: running `process_single_folder` twice on a folder whose `folder.ico`
already has all required widths writes byte-identical `desktop.ini` content
both times and never changes the embedded ICO widths. -/
theorem reconcile_idempotent_on_complete (f : Folder)
    (parsed : Option (List Nat)) (u : Bool) (hico : f.ico = some parsed)
    (hsub : REQUIRED_FOLDER_ICO_SIZES ⊆ get_ico_sizes true parsed)
    (hw : f.writeCap = WriteCap.ok) :
    (process_single_folder true u (process_single_folder true u f).1).1.ini =
      (process_single_folder true u f).1.ini ∧
    (process_single_folder true u f).1.ico = f.ico ∧
    (process_single_folder true u
        (process_single_folder true u f).1).1.ico =
      (process_single_folder true u f).1.ico := by
  have hmiss : REQUIRED_FOLDER_ICO_SIZES \ get_ico_sizes true parsed = ∅ :=
    Finset.sdiff_eq_empty_iff_subset.mpr hsub
  set g : Folder :=
    { f with
        ini := some ("[.ShellClassInfo]\nIconResource=" ++
          (if u then f.icoAbs else "folder.ico") ++ ",0\n"),
        sysAttr := true, iniAttr := true } with hg
  have e1 : (process_single_folder true u f).1 = g := by
    rw [process_complete f parsed u hico hmiss, finishSetIcon_ok f u hw, hg]
  have hicoG : g.ico = some parsed := hico
  have hwG : g.writeCap = WriteCap.ok := hw
  have e2 : process_single_folder true u g = finishSetIcon g u :=
    process_complete g parsed u hicoG hmiss
  refine ⟨?_, ?_, ?_⟩
  · rw [e1, e2, finishSetIcon_ok g u hwG]
  · rw [e1, hg]
  · rw [e1, e2, finishSetIcon_fst, set_folder_icon_fst_ico]

theorem reconcile_idempotent_on_complete_witness :
    (process_single_folder true false
        (process_single_folder true false sampleComplete).1).1.ini =
      (process_single_folder true false sampleComplete).1.ini :=
  (reconcile_idempotent_on_complete sampleComplete (some [16, 32, 48, 256])
    false rfl (by decide) rfl).1

/-- C10: `get_ico_sizes` returns the empty width set both when the imaging
capability is unavailable and when the ICO fails to parse; a corrupt
`folder.ico` is therefore missing every required width, and the CLI
reconciler regenerates it (full size set) whenever `folder.png` is present. -/
theorem get_ico_sizes_total_and_corrupt_regen (f : Folder) (u : Bool)
    (parsed : Option (List Nat)) (hico : f.ico = some none)
    (hpng : f.png = some PngFile.ok) :
    get_ico_sizes false parsed = ∅ ∧
    get_ico_sizes true none = ∅ ∧
    REQUIRED_FOLDER_ICO_SIZES \ get_ico_sizes true none =
      REQUIRED_FOLDER_ICO_SIZES ∧
    (process_single_folder true u f).1.ico = some (some fullIcoWidths) := by
  refine ⟨rfl, rfl, by decide, ?_⟩
  rw [process_incomplete_png f none u hico (by decide) hpng,
    finishSetIcon_fst, set_folder_icon_fst_ico]

theorem get_ico_sizes_total_and_corrupt_regen_witness :
    (process_single_folder true false sampleCorruptWithPng).1.ico =
      some (some fullIcoWidths) :=
  (get_ico_sizes_total_and_corrupt_regen sampleCorruptWithPng false none
    rfl rfl).2.2.2

end SetFolderIcon

namespace PngToIco

open SetFolderIcon (Folder PyResult PngFile WriteCap fullIcoWidths)

lemma gui_set_folder_icon_fst_name (f : Folder) (n : String) :
    (set_folder_icon f n).1.name = f.name := by
  unfold set_folder_icon
  cases hw : f.writeCap <;> cases hini : f.ini <;> simp

lemma gui_set_folder_icon_fst_icoAbs (f : Folder) (n : String) :
    (set_folder_icon f n).1.icoAbs = f.icoAbs := by
  unfold set_folder_icon
  cases hw : f.writeCap <;> cases hini : f.ini <;> simp

lemma gui_set_folder_icon_fst_writeCap (f : Folder) (n : String) :
    (set_folder_icon f n).1.writeCap = f.writeCap := by
  unfold set_folder_icon
  cases hw : f.writeCap <;> cases hini : f.ini <;> simp [hw]

/-- C9: when `folder.ico` already exists, the GUI reconciler passes it
through untouched — no width inspection, no regeneration — leaving every
field except the `desktop.ini` text and the attribute flags unchanged;
on an incomplete ICO with a PNG beside it the CLI reconciler rewrites
`folder.ico` while the GUI one does not. -/
theorem gui_reconciler_preserves_existing_ico (f : Folder)
    (parsed : Option (List Nat)) (hico : f.ico = some parsed) :
    ((process_single_folder f).1.ico = f.ico ∧
     (process_single_folder f).1.png = f.png ∧
     (process_single_folder f).1.name = f.name ∧
     (process_single_folder f).1.icoAbs = f.icoAbs ∧
     (process_single_folder f).1.writeCap = f.writeCap) ∧
    ((SetFolderIcon.process_single_folder true false
        SetFolderIcon.sampleIncompleteWithPng).1.ico ≠
      SetFolderIcon.sampleIncompleteWithPng.ico ∧
     (process_single_folder SetFolderIcon.sampleIncompleteWithPng).1.ico =
      SetFolderIcon.sampleIncompleteWithPng.ico) := by
  refine ⟨?_, by decide, by decide⟩
  rw [gui_process_existing f parsed hico, gui_finishSetIcon_fst]
  exact ⟨gui_set_folder_icon_fst_ico f "folder.ico",
    gui_set_folder_icon_fst_png f "folder.ico",
    gui_set_folder_icon_fst_name f "folder.ico",
    gui_set_folder_icon_fst_icoAbs f "folder.ico",
    gui_set_folder_icon_fst_writeCap f "folder.ico"⟩

theorem gui_reconciler_preserves_existing_ico_witness :
    (process_single_folder SetFolderIcon.sampleComplete).1.ico =
      SetFolderIcon.sampleComplete.ico :=
  (gui_reconciler_preserves_existing_ico SetFolderIcon.sampleComplete
    (some [16, 32, 48, 256]) rfl).1.1

end PngToIco

namespace PngToIco

lemma allowed_not_whitespace (c : Char) (h : allowedPfxChar c = true) :
    c.isWhitespace = false := by
  cases hw : c.isWhitespace
  · rfl
  · exfalso
    unfold Char.isWhitespace at hw
    simp only [Bool.or_eq_true, decide_eq_true_eq] at hw
    rcases hw with ((h1 | h1) | h1) | h1 <;> subst h1 <;>
      exact absurd h (by decide)

lemma dropWhile_eq_self_of_all_false {p : Char → Bool} (l : List Char)
    (h : ∀ c ∈ l, p c = false) : l.dropWhile p = l := by
  cases l with
  | nil => rfl
  | cons a t =>
    rw [List.dropWhile_cons, h a (List.mem_cons_self a t)]
    simp

lemma pyStrip_of_no_whitespace (l : List Char)
    (h : ∀ c ∈ l, c.isWhitespace = false) :
    pyStrip (String.mk l) = String.mk l := by
  unfold pyStrip
  rw [show (String.mk l).data = l from rfl,
    dropWhile_eq_self_of_all_false l h,
    dropWhile_eq_self_of_all_false l.reverse
      (fun c hc => h c (List.mem_reverse.mp hc)),
    List.reverse_reverse]

lemma pyStrip_validated (typed : String) :
    pyStrip ( validate_prefix typed) =
      String.mk (typed.data.filter allowedPfxChar) := by
  unfold validate_prefix
  exact pyStrip_of_no_whitespace _ (fun c hc =>
    allowed_not_whitespace c (List.mem_filter.mp hc).2)

lemma generated_files_use_pfx (entry theme bg : String) :
    ∀ fn ∈ (generate_favicon_set entry theme bg).generated_files,
      ∃ rest, fn = pyStrip entry ++ rest := by
  intro fn hfn
  simp only [generate_favicon_set, List.mem_cons, List.mem_append,
    List.mem_singleton, List.not_mem_nil, or_false] at hfn
  rcases hfn with (h | h | h | h | h) | h | h | h <;> exact ⟨_, h⟩

end PngToIco

namespace PngToIco

/-- C2 (counterexample): on a concrete run, `generate_favicon_set` emits 8
files, not 9 as claimed. -/
theorem generate_favicon_set_nine_files_false :
    ¬ (generate_favicon_set "site-" "#ffffff"
        "#ffffff").generated_files.length = 9 := by decide

/-- C2 (amended): `generate_favicon_set` writes exactly 8 files, every
filename begins with the used prefix, and the manifest's first icon `src` is
`/<prefix>android-chrome-192x192.png`. -/
theorem generate_favicon_set_contract (entry theme bg : String) :
    (generate_favicon_set entry theme bg).generated_files.length = 8 ∧
    (∀ fn ∈ (generate_favicon_set entry theme bg).generated_files,
      ∃ rest, fn = pyStrip entry ++ rest) ∧
    ((generate_favicon_set entry theme bg).manifest.icons.map
        ManifestIcon.src).head? =
      some ("/" ++ pyStrip entry ++ "android-chrome-192x192.png") := by
  exact ⟨rfl, generated_files_use_pfx entry theme bg, rfl⟩

theorem generate_favicon_set_contract_witness :
    ("site-favicon.ico" ∈
      (generate_favicon_set "site-" "#ffffff"
        "#000000").generated_files) ∧
    ∃ rest, "site-favicon.ico" = pyStrip "site-" ++ rest :=
  ⟨by decide,
   (generate_favicon_set_contract "site-" "#ffffff" "#000000").2.1
     "site-favicon.ico" (by decide)⟩

/-- C8: the prefix actually used for the generated filenames is the typed
input with every character outside `[a-zA-Z0-9\-_]` removed (the
`<KeyRelease>` filter runs on the entry before generation, and the `strip()`
at generation time is the identity on a filtered entry), and every emitted
filename begins with that filtered prefix. -/
theorem used_pfx_is_filtered_input (typed theme bg : String) :
    pyStrip ( validate_prefix typed) =
      String.mk (typed.data.filter allowedPfxChar) ∧
    ∀ fn ∈ (generate_favicon_set ( validate_prefix typed) theme
        bg).generated_files,
      ∃ rest, fn = String.mk (typed.data.filter allowedPfxChar) ++ rest := by
  refine ⟨pyStrip_validated typed, ?_⟩
  intro fn hfn
  obtain ⟨rest, hr⟩ :=
    generated_files_use_pfx ( validate_prefix typed) theme bg fn hfn
  exact ⟨rest, by rw [hr, pyStrip_validated typed]⟩

theorem used_pfx_is_filtered_input_witness :
    (pyStrip ( validate_prefix "My Site!") =
      String.mk ("My Site!".data.filter allowedPfxChar)) ∧
    String.mk ("My Site!".data.filter allowedPfxChar) = "MySite" :=
  ⟨(used_pfx_is_filtered_input "My Site!" "#ffffff" "#000000").1, by decide⟩

end PngToIco

namespace SetFolderIcon

lemma itemOk_of_ok (pillow u : Bool) (a : Folder)
    (hr : (process_single_folder pillow u a).2.1 = PyResult.ok) :
    itemOk pillow u a = true := by
  unfold itemOk
  rw [hr]

lemma itemOk_of_err (pillow u : Bool) (a : Folder) (m : String)
    (hr : (process_single_folder pillow u a).2.1 = PyResult.err m) :
    itemOk pillow u a = false := by
  unfold itemOk
  rw [hr]

lemma itemErrEntry_of_ok (pillow u : Bool) (a : Folder)
    (hr : (process_single_folder pillow u a).2.1 = PyResult.ok) :
    itemErrEntry pillow u a = none := by
  unfold itemErrEntry
  rw [hr]

lemma itemErrEntry_of_err (pillow u : Bool) (a : Folder) (m : String)
    (hr : (process_single_folder pillow u a).2.1 = PyResult.err m) :
    itemErrEntry pillow u a = some (a.name ++ ": " ++ m) := by
  unfold itemErrEntry
  rw [hr]

lemma foldl_subfolderStep (pillow u : Bool) (subs : List Folder) :
    ∀ (p0 : Nat) (es0 : List String) (sf0 : List Folder),
      subs.foldl (subfolderStep pillow u) (p0, es0, sf0) =
        (p0 + subs.countP (itemOk pillow u),
         es0 ++ subs.filterMap (itemErrEntry pillow u),
         sf0 ++ subs.map (fun s => (process_single_folder pillow u s).1)) := by
  induction subs with
  | nil => intro p0 es0 sf0; simp
  | cons a t ih =>
    intro p0 es0 sf0
    rw [List.foldl_cons]
    cases hr : (process_single_folder pillow u a).2.1 with
    | ok =>
      have hstep : subfolderStep pillow u (p0, es0, sf0) a =
          (p0 + 1, es0, sf0 ++ [(process_single_folder pillow u a).1]) := by
        simp only [subfolderStep, hr]
      rw [hstep, ih]
      simp [List.countP_cons, List.filterMap_cons, itemOk_of_ok pillow u a hr,
        itemErrEntry_of_ok pillow u a hr]
      omega
    | err m =>
      have hstep : subfolderStep pillow u (p0, es0, sf0) a =
          (p0, es0 ++ [a.name ++ ": " ++ m],
            sf0 ++ [(process_single_folder pillow u a).1]) := by
        simp only [subfolderStep, hr]
      rw [hstep, ih]
      simp [List.countP_cons, List.filterMap_cons,
        itemOk_of_err pillow u a m hr, itemErrEntry_of_err pillow u a m hr]

lemma countP_itemOk_add_not (p : Folder → Bool) (l : List Folder) :
    l.countP p + l.countP (fun a => ! p a) = l.length := by
  induction l with
  | nil => rfl
  | cons a t ih =>
    by_cases h : p a = true <;> simp [List.countP_cons, h] <;> omega

lemma length_filterMap_errEntry (pillow u : Bool) (l : List Folder) :
    (l.filterMap (itemErrEntry pillow u)).length =
      l.countP (fun s => ! itemOk pillow u s) := by
  induction l with
  | nil => rfl
  | cons a t ih =>
    cases hr : (process_single_folder pillow u a).2.1 with
    | ok =>
      simp [List.filterMap_cons, List.countP_cons,
        itemErrEntry_of_ok pillow u a hr, itemOk_of_ok pillow u a hr, ih]
    | err m =>
      simp [List.filterMap_cons, List.countP_cons,
        itemErrEntry_of_err pillow u a m hr, itemOk_of_err pillow u a m hr,
        ih]

end SetFolderIcon

namespace SetFolderIcon

/-- C3 (counterexample): a batch run over a target directory that succeeds
and N = 0 subfolders with K = 0 failures reports `processed = 1`, not
`N - K = 0` as the claim's formula states. -/
theorem apply_folder_icon_n_minus_k_false :
    ((sampleComplete :: ([] : List Folder)).countP
        (fun s => ! itemOk true false s) = 0) ∧
    ¬ ((apply_folder_icon true true true true true false sampleComplete
        []).processed = ([] : List Folder).length - 0) := by decide

/-- C3 (amended): with all gates passing and recursion on, the batch driver
attempts the target and every subfolder; with `K` failures among the
`N + 1` attempted items it reports `processed = (N + 1) - K` successes and
records exactly `K` failure entries, each `"{name}: {reason}"`. -/
theorem apply_folder_icon_batch_summary (u : Bool) (main : Folder)
    (subs : List Folder) :
    (apply_folder_icon true true true true true u main subs).processed +
        (main :: subs).countP (fun s => ! itemOk true u s) =
      subs.length + 1 ∧
    (apply_folder_icon true true true true true u main subs).errors =
      (main :: subs).filterMap (itemErrEntry true u) ∧
    (apply_folder_icon true true true true true u main subs).errors.length =
      (main :: subs).countP (fun s => ! itemOk true u s) ∧
    (apply_folder_icon true true true true true u main subs).subsAfter =
      subs.map (fun s => (process_single_folder true u s).1) := by
  cases hr : (process_single_folder true u main).2.1 with
  | ok =>
    have hfold := foldl_subfolderStep true u subs 1 [] []
    have hca := countP_itemOk_add_not (itemOk true u) subs
    have hok : itemOk true u main = true := itemOk_of_ok true u main hr
    have hee : itemErrEntry true u main = none :=
      itemErrEntry_of_ok true u main hr
    refine ⟨?_, ?_, ?_, ?_⟩ <;>
      simp [apply_folder_icon, hr, hfold, List.countP_cons,
        List.filterMap_cons, hok, hee, length_filterMap_errEntry] <;>
      omega
  | err m =>
    have hfold := foldl_subfolderStep true u subs 0
      [main.name ++ ": " ++ m] []
    have hca := countP_itemOk_add_not (itemOk true u) subs
    have hok : itemOk true u main = false := itemOk_of_err true u main m hr
    have hee : itemErrEntry true u main = some (main.name ++ ": " ++ m) :=
      itemErrEntry_of_err true u main m hr
    refine ⟨?_, ?_, ?_, ?_⟩ <;>
      simp [apply_folder_icon, hr, hfold, List.countP_cons,
        List.filterMap_cons, hok, hee, length_filterMap_errEntry] <;>
      omega

end SetFolderIcon
